import Mathlib

/-!
Shallow embedding of the xlights_scheduler core: the HTTP client
(`custom_components/xlights_scheduler/client.py`) and the polling coordinator
(`custom_components/xlights_scheduler/coordinator.py`).

Network interaction is modelled by an oracle: a list of pending server
responses, consumed one per HTTP GET.  Each GET also appends a `Request`
record to a request log, so "round trips" and "identical retried request"
are directly observable.  A response is `Except.error ()` for a transport
exception and `Except.ok js` for a decoded JSON object; JSON objects are
string-keyed association lists (the code only ever reads string fields).
-/

/-- A decoded JSON object, as the code uses it: `js.get(key)` returning the
string value or `None` when the key is absent. -/
def JsonObj : Type := List (String × String)

instance : DecidableEq JsonObj := by
  unfold JsonObj
  infer_instance

/-- `js.get(key)` from Python: the value of the first binding of `key`, if any. -/
def JsonObj.get (js : JsonObj) (k : String) : Option String :=
  (js.find? (fun kv => kv.1 == k)).map (fun kv => kv.2)

deriving instance DecidableEq for Except

/-- The pending-response oracle: one entry per future HTTP GET. -/
abbrev Net := List (Except Unit JsonObj)

/-- Consume the next pending response; an exhausted oracle behaves as a
transport exception. -/
def netPop : Net → Except Unit JsonObj × Net
  | [] => (Except.error (), [])
  | r :: rest => (r, rest)

/-- `REFERENCE_PREFIX` from `const.py`. -/
def referenceTag : String := "ha:xlights_scheduler"

/-- One HTTP GET issued by the client, identified by endpoint and the query
fields the code puts in the URL (the percent-encoding itself is injective on
these fields, so request identity is captured by the fields). -/
inductive Request where
  | login (credential : String) (reference : String)
  | getQuery (q : String) (parameters : String) (reference : String)
  | getCommand (c : String) (parameters : String) (data : String) (reference : String)
deriving DecidableEq

def Request.isLogin : Request → Bool
  | .login _ _ => true
  | _ => false

def Request.isQuery : Request → Bool
  | .getQuery _ _ _ => true
  | _ => false

def Request.isCommand : Request → Bool
  | .getCommand _ _ _ _ => true
  | _ => false

/-- The mutable state of `XScheduleClient`: password (empty string when not
configured, matching `password or ""`), last server-observed IP, logged-in
flag, and the two caches cleared on a fresh login. -/
structure ClientState where
  password : String
  server_seen_ip : Option String
  logged_in : Bool
  playlists : Option (List JsonObj)
  steps_cache : List (String × List JsonObj)
deriving DecidableEq

/-- Python truthiness of an optional string: `None` and `""` are falsy. -/
def strTruthy : Option String → Bool
  | none => false
  | some s => s != ""

/-- Python `x or default` on an optional string. -/
def pyOr (x : Option String) (d : String) : String :=
  match x with
  | none => d
  | some s => if s = "" then d else s

/-- `reference or REFERENCE_PREFIX` from `query`/`command`. -/
def refOr (r : Option String) : String := pyOr r referenceTag

/-- `XScheduleClient._login_with_credential`: one GET to `/xScheduleLogin`;
on result `"ok"` set the logged-in flag and clear the derived-list caches;
any exception or other result reports failure. -/
def loginWithCredential (credential : String) (cs : ClientState) (net : Net) :
    Bool × ClientState × Net × List Request :=
  let req := Request.login credential referenceTag
  let pr := netPop net
  match pr.1 with
  | Except.error _ => (false, cs, pr.2, [req])
  | Except.ok js =>
    if js.get "result" = some "ok" then
      (true, { cs with logged_in := true, playlists := none, steps_cache := [] }, pr.2, [req])
    else
      (false, cs, pr.2, [req])

/-- `XScheduleClient._get_hinted_ip`: deliberately send credential `"bad"`
and read the `ip` field the server echoes back; exceptions yield `none`. -/
def getHintedIp (net : Net) : Option String × Net × List Request :=
  let req := Request.login "bad" referenceTag
  let pr := netPop net
  match pr.1 with
  | Except.error _ => (none, pr.2, [req])
  | Except.ok js => (js.get "ip", pr.2, [req])

/-- The hint-then-credential tail of `async_login` (lines 61-69 of
`client.py`): harvest the hinted IP and, when it is truthy, store it and
attempt login with `md5(hintedIp + password)`. -/
def loginHintPhase (hash : String → String) (cs : ClientState) (net : Net)
    (l0 : List Request) : Bool × ClientState × Net × List Request :=
  let h := getHintedIp net
  match h.1 with
  | some ip =>
    if ip = "" then (false, cs, h.2.1, l0 ++ h.2.2)
    else
      let cs1 := { cs with server_seen_ip := some ip }
      let r := loginWithCredential (hash (ip ++ cs.password)) cs1 h.2.1
      (r.1, r.2.1, r.2.2.1, l0 ++ h.2.2 ++ r.2.2.2)
  | none => (false, cs, h.2.1, l0 ++ h.2.2)

/-- `XScheduleClient.async_login`, with the MD5 digest abstracted as the
`hash` parameter.  No password: trivially logged in with no round trip.
Otherwise: try the cached server-observed IP first when truthy; on failure
(or no cached IP) fall through to the hint-then-credential phase. -/
def async_login (hash : String → String) (cs : ClientState) (net : Net) :
    Bool × ClientState × Net × List Request :=
  if cs.password = "" then
    (true, { cs with logged_in := true }, net, [])
  else
    match cs.server_seen_ip with
    | some ip =>
      if ip = "" then loginHintPhase hash cs net []
      else
        let r := loginWithCredential (hash (ip ++ cs.password)) cs net
        if r.1 then (true, r.2.1, r.2.2.1, r.2.2.2)
        else loginHintPhase hash r.2.1 r.2.2.1 r.2.2.2
    | none => loginHintPhase hash cs net []

/-- `XScheduleClient._ensure_login`: no-op without a password or when already
logged in; otherwise run the full login handshake (its result is discarded). -/
def ensure_login (hash : String → String) (cs : ClientState) (net : Net) :
    ClientState × Net × List Request :=
  if cs.password = "" then (cs, net, [])
  else if cs.logged_in then (cs, net, [])
  else
    let r := async_login hash cs net
    (r.2.1, r.2.2.1, r.2.2.2)

/-- `XScheduleClient.query`: ensure login, issue the GET, and on a decoded
`"not logged in"` result mark the session lost, ensure login again, and
reissue the identical request exactly once, returning the second decoded
response unchanged. -/
def query (hash : String → String) (q parameters : String) (reference : Option String)
    (cs : ClientState) (net : Net) :
    Except Unit JsonObj × ClientState × Net × List Request :=
  let req := Request.getQuery q parameters (refOr reference)
  let e1 := ensure_login hash cs net
  let pr := netPop e1.2.1
  match pr.1 with
  | Except.error e => (Except.error e, e1.1, pr.2, e1.2.2 ++ [req])
  | Except.ok js =>
    if js.get "result" = some "not logged in" then
      let cs2 := { e1.1 with logged_in := false }
      let e2 := ensure_login hash cs2 pr.2
      let pr2 := netPop e2.2.1
      (pr2.1, e2.1, pr2.2, e1.2.2 ++ [req] ++ e2.2.2 ++ [req])
    else
      (Except.ok js, e1.1, pr.2, e1.2.2 ++ [req])

/-- `XScheduleClient.command`: identical control flow to `query` on the
`/xScheduleCommand` endpoint (the optional body travels with the request). -/
def command (hash : String → String) (c parameters data : String)
    (reference : Option String) (cs : ClientState) (net : Net) :
    Except Unit JsonObj × ClientState × Net × List Request :=
  let req := Request.getCommand c parameters data (refOr reference)
  let e1 := ensure_login hash cs net
  let pr := netPop e1.2.1
  match pr.1 with
  | Except.error e => (Except.error e, e1.1, pr.2, e1.2.2 ++ [req])
  | Except.ok js =>
    if js.get "result" = some "not logged in" then
      let cs2 := { e1.1 with logged_in := false }
      let e2 := ensure_login hash cs2 pr.2
      let pr2 := netPop e2.2.1
      (pr2.1, e2.1, pr2.2, e1.2.2 ++ [req] ++ e2.2.2 ++ [req])
    else
      (Except.ok js, e1.1, pr.2, e1.2.2 ++ [req])

/-!
Coordinator embedding (`coordinator.py`).  One poll cycle is a pure function
of the coordinator state, the clock reading, and the outcomes of the three
fetches the cycle may perform (status, playlist list, next-scheduled); each
outcome is `Except.error ()` when the underlying client call raised.  Events
are collected into a list in the exact order `hass.bus.async_fire` is called.
-/

/-- The decoded `GetPlayingStatus` payload, restricted to the fields the
coordinator reads; `none` models an absent key (`dict.get` returning `None`). -/
structure StatusPayload where
  status : Option String
  version : Option String
  scheduleid : Option String
  schedulename : Option String
  playlistid : Option String
  playlist : Option String
  scheduleend : Option String
  trigger : Option String
  step : Option String
  stepid : Option String
  outputtolights : Option String
  playlistlooping : Option String
deriving DecidableEq

/-- The snapshot a successful cycle publishes: the raw payload with the three
synthetic fields the coordinator injects (`_playlists`, `_ts`,
`_next_scheduled`; the last is `none` when the best-effort fetch failed). -/
structure Snapshot where
  payload : StatusPayload
  playlists : List JsonObj
  ts : Nat
  next_scheduled : Option JsonObj
deriving DecidableEq

/-- The events the coordinator fires, with the payload fields it attaches
(the constant `device` field is omitted: it never varies per event). -/
inductive XEvent where
  | versionChanged (version : String)
  | scheduleStarted (scheduleid : String) (schedulename : Option String)
      (playlistid : Option String) (playlist : Option String)
      (scheduleend : Option String) (trigger : Option String)
  | scheduleEnded (scheduleid : String)
  | playlistEnded (playlist : String) (playlistid : Option String) (status : String)
  | playlistStarted (playlist : String) (playlistid : Option String) (status : String)
      (trigger : Option String)
  | stepChanged (playlist : Option String) (playlistid : Option String)
      (step : Option String) (stepid : Option String) (previous_step : Option String)
      (status : String)
  | outputToggled (state : Bool) (playlist : Option String) (playlistid : Option String)
      (status : String)
  | playlistLoopChanged (loopState : Bool) (playlist : Option String)
      (playlistid : Option String) (status : String)
deriving DecidableEq

/-- `XScheduleCoordinator` mutable state: the resolved polling options, the
current update interval (seconds), the playlist cache with its timestamp,
and the EdgeState fields remembered from the previous cycle. -/
structure CoordState where
  poll_playing : Nat
  poll_idle : Nat
  lists_refresh_secs : Nat
  update_interval : Nat
  last_playlists : Option (List JsonObj)
  last_playlists_ts : Option Nat
  last_schedule_id : Option String
  last_version : Option String
  last_status : Option String
  last_playlist : Option String
  last_playlist_id : Option String
  last_step : Option String
  last_output : Option Bool
  last_playlist_loop : Option Bool
deriving DecidableEq

/-- Python `str.lower()` on the ASCII data the protocol uses, implemented by
mapping over the characters (reduces in the kernel, unlike `String.toLower`). -/
def pyLower (s : String) : String := String.mk (s.data.map Char.toLower)

/-- Python `str.upper()`, implemented the same way. -/
def pyUpper (s : String) : String := String.mk (s.data.map Char.toUpper)

/-- The status values the coordinator treats as active playback. -/
def activeStatuses : List String := ["playing", "paused"]

/-- Python `self._last_status not in ("playing", "paused")`, negated:
`None` is never in the tuple. -/
def statusActive : Option String → Bool
  | some s => decide (s ∈ activeStatuses)
  | none => false

/-- `XScheduleCoordinator._apply_interval_for_status`. -/
def applyIntervalForStatus (st : CoordState) (status : String) : CoordState :=
  { st with update_interval :=
      if status ∈ activeStatuses then st.poll_playing else st.poll_idle }

/-- Lines 81-84 of `coordinator.py`: adapt the interval from the reported
status, treating an absent or empty status as idle. -/
def intervalStep (st : CoordState) (p : StatusPayload) : CoordState :=
  if strTruthy p.status then applyIntervalForStatus st (p.status.getD "idle")
  else applyIntervalForStatus st "idle"

/-- Lines 86-100: on a truthy version differing from the last observed one,
reset the playlist-cache timestamp, remember the version, and fire
`version_changed`. -/
def versionStep (st : CoordState) (p : StatusPayload) : CoordState × List XEvent :=
  match p.version with
  | some v =>
    if v ≠ "" ∧ some v ≠ st.last_version then
      ({ st with last_playlists_ts := none, last_version := some v },
       [XEvent.versionChanged v])
    else (st, [])
  | none => (st, [])

/-- The staleness test of lines 104-108: never fetched, timestamp cleared,
or age beyond the TTL. -/
def needListRefresh (st : CoordState) (now : Nat) : Bool :=
  match st.last_playlists, st.last_playlists_ts with
  | none, _ => true
  | _, none => true
  | some _, some ts => decide (now - ts > st.lists_refresh_secs)

/-- Lines 102-113: refresh the playlist cache when stale; a fetch failure
silently keeps the existing cache and timestamp. -/
def listRefreshStep (st : CoordState) (now : Nat)
    (plRes : Except Unit (List JsonObj)) : CoordState :=
  if needListRefresh st now then
    match plRes with
    | Except.ok pls => { st with last_playlists := some pls, last_playlists_ts := some now }
    | Except.error _ => st
  else st

/-- Lines 127-130: the currently active schedule id — only when the raw
status is playing or paused and the raw id is non-empty and not `"N/A"`. -/
def curSchedId (p : StatusPayload) : Option String :=
  let raw := p.scheduleid.getD ""
  if (p.status = some "playing" ∨ p.status = some "paused")
      ∧ raw ≠ "" ∧ pyUpper raw ≠ "N/A" then
    some raw
  else none

/-- Lines 132-145: `schedule_started` fires when the current active schedule
id is truthy and differs from the remembered one. -/
def schedStartEvents (st : CoordState) (p : StatusPayload) : List XEvent :=
  match curSchedId p with
  | some sid =>
    if sid ≠ "" ∧ some sid ≠ st.last_schedule_id then
      [XEvent.scheduleStarted sid p.schedulename p.playlistid p.playlist
        p.scheduleend p.trigger]
    else []
  | none => []

/-- Lines 147-154: `schedule_ended` fires when a truthy schedule id was
remembered and the current one is falsy. -/
def schedEndEvents (st : CoordState) (p : StatusPayload) : List XEvent :=
  match st.last_schedule_id with
  | some lid =>
    if lid ≠ "" ∧ strTruthy (curSchedId p) = false then [XEvent.scheduleEnded lid]
    else []
  | none => []

/-- Lines 132-156: fire the schedule edge events, then remember the current
active schedule id. -/
def scheduleStep (st : CoordState) (p : StatusPayload) : CoordState × List XEvent :=
  ({ st with last_schedule_id := curSchedId p },
    schedStartEvents st p ++ schedEndEvents st p)

/-- Line 159: `str(status.get("status") or "idle").lower()`. -/
def curStatusOf (p : StatusPayload) : String := pyLower (pyOr p.status "idle")

/-- Line 164: `str(status.get("outputtolights") or "false").lower() == "true"`. -/
def curOutputOf (p : StatusPayload) : Bool :=
  pyLower (pyOr p.outputtolights "false") == "true"

/-- Line 165: the playlist-loop flag, normalised the same way. -/
def curLoopOf (p : StatusPayload) : Bool :=
  pyLower (pyOr p.playlistlooping "false") == "true"

/-- Lines 168-179: `playlist_ended` fires when a truthy playlist was
remembered and the playlist changed or the status left playing/paused. -/
def plEndedEvents (st : CoordState) (p : StatusPayload) : List XEvent :=
  match st.last_playlist with
  | some lp =>
    if lp ≠ "" ∧ (p.playlist ≠ some lp ∨ curStatusOf p ∉ activeStatuses) then
      [XEvent.playlistEnded lp st.last_playlist_id (curStatusOf p)]
    else []
  | none => []

/-- Lines 181-195: `playlist_started` fires while playing/paused when the
playlist is truthy and playback just became active or the playlist changed. -/
def plStartedEvents (st : CoordState) (p : StatusPayload) : List XEvent :=
  if curStatusOf p ∈ activeStatuses then
    match p.playlist with
    | some cp =>
      if cp ≠ "" ∧ (statusActive st.last_status = false ∨ p.playlist ≠ st.last_playlist) then
        [XEvent.playlistStarted cp p.playlistid (curStatusOf p) p.trigger]
      else []
    | none => []
  else []

/-- Lines 197-211: `step_changed` fires when the step differs from the
remembered one and at least one of them is truthy. -/
def stepEvents (st : CoordState) (p : StatusPayload) : List XEvent :=
  if p.step ≠ st.last_step ∧ (strTruthy p.step = true ∨ strTruthy st.last_step = true) then
    [XEvent.stepChanged p.playlist p.playlistid p.step p.stepid st.last_step (curStatusOf p)]
  else []

/-- Lines 213-224: `output_toggled` fires when the previous flag was known
and differs. -/
def outputEvents (st : CoordState) (p : StatusPayload) : List XEvent :=
  match st.last_output with
  | some lo =>
    if curOutputOf p ≠ lo then
      [XEvent.outputToggled (curOutputOf p) p.playlist p.playlistid (curStatusOf p)]
    else []
  | none => []

/-- Lines 226-237: `playlist_loop_changed` fires when the previous flag was
known and differs. -/
def loopEvents (st : CoordState) (p : StatusPayload) : List XEvent :=
  match st.last_playlist_loop with
  | some ll =>
    if curLoopOf p ≠ ll then
      [XEvent.playlistLoopChanged (curLoopOf p) p.playlist p.playlistid (curStatusOf p)]
    else []
  | none => []

/-- Lines 167-237: the playlist / step / output / loop edge events, in firing
order, computed against the remembered previous-cycle fields. -/
def derivedEvents (st : CoordState) (p : StatusPayload) : List XEvent :=
  plEndedEvents st p ++ plStartedEvents st p ++ stepEvents st p
    ++ outputEvents st p ++ loopEvents st p

/-- Lines 239-245: overwrite the EdgeState fields with this cycle's derived
values. -/
def edgeCommit (st : CoordState) (p : StatusPayload) : CoordState :=
  { st with
    last_status := some (curStatusOf p)
    last_playlist := p.playlist
    last_playlist_id := p.playlistid
    last_step := p.step
    last_output := some (curOutputOf p)
    last_playlist_loop := some (curLoopOf p) }

/-- The successful-status branch of `_async_update_data`: interval
adaptation, version handling, TTL-gated list refresh, snapshot injection,
best-effort next-scheduled fetch, edge events, EdgeState commit.  Returns
the new state, the fired events in order, and the published snapshot. -/
def updateCycle (st : CoordState) (now : Nat) (p : StatusPayload)
    (plRes : Except Unit (List JsonObj)) (nsRes : Except Unit JsonObj) :
    CoordState × List XEvent × Snapshot :=
  let st0 := intervalStep st p
  let v := versionStep st0 p
  let st2 := listRefreshStep v.1 now plRes
  let nextSched : Option JsonObj :=
    match nsRes with
    | Except.ok js => some js
    | Except.error _ => none
  let s := scheduleStep st2 p
  let evs3 := derivedEvents s.1 p
  (edgeCommit s.1 p,
   v.2 ++ s.2 ++ evs3,
   { payload := p
     playlists := st2.last_playlists.getD []
     ts := now
     next_scheduled := nextSched })

/-- `XScheduleCoordinator._async_update_data`: a failed status fetch raises
`UpdateFailed` before anything else happens; otherwise the cycle runs. -/
def asyncUpdateData (st : CoordState) (now : Nat)
    (statusResult : Except Unit StatusPayload)
    (plRes : Except Unit (List JsonObj)) (nsRes : Except Unit JsonObj) :
    Except Unit (CoordState × List XEvent × Snapshot) :=
  match statusResult with
  | Except.error e => Except.error e
  | Except.ok p => Except.ok (updateCycle st now p plRes nsRes)

/-- One framework-level timer tick: on `UpdateFailed` the coordinator keeps
its state and the previously published snapshot and fires nothing; on
success it publishes the new snapshot and fires the cycle's events. -/
def coordinatorTick (st : CoordState) (pub : Option Snapshot) (now : Nat)
    (statusResult : Except Unit StatusPayload)
    (plRes : Except Unit (List JsonObj)) (nsRes : Except Unit JsonObj) :
    CoordState × Option Snapshot × List XEvent :=
  match asyncUpdateData st now statusResult plRes nsRes with
  | Except.error _ => (st, pub, [])
  | Except.ok r => (r.1, some r.2.2, r.2.1)


theorem netPop_ok_mem {net : Net} {js : JsonObj} (h : (netPop net).1 = Except.ok js) :
    Except.ok js ∈ net := by
  cases net with
  | nil => simp [netPop] at h
  | cons r rest =>
    simp only [netPop] at h
    simp [h]

theorem netPop_snd_subset {net : Net} {x : Except Unit JsonObj}
    (h : x ∈ (netPop net).2) : x ∈ net := by
  cases net with
  | nil => simp [netPop] at h
  | cons r rest =>
    simp only [netPop] at h
    simp [h]

theorem loginWithCredential_log (cred : String) (cs : ClientState) (net : Net) :
    (loginWithCredential cred cs net).2.2.2 = [Request.login cred referenceTag] := by
  simp only [loginWithCredential]
  rcases h : (netPop net).1 with e | js
  · rfl
  · dsimp only
    split <;> rfl

theorem loginWithCredential_net (cred : String) (cs : ClientState) (net : Net) :
    (loginWithCredential cred cs net).2.2.1 = (netPop net).2 := by
  simp only [loginWithCredential]
  rcases h : (netPop net).1 with e | js
  · rfl
  · dsimp only
    split <;> rfl

theorem loginWithCredential_ok_iff (cred : String) (cs : ClientState) (net : Net) :
    (loginWithCredential cred cs net).1 = true ↔
      ∃ js, (netPop net).1 = Except.ok js ∧ js.get "result" = some "ok" := by
  simp only [loginWithCredential]
  rcases h : (netPop net).1 with e | js
  · simp
  · dsimp only
    split
    · simp_all
    · simp_all

theorem loginWithCredential_logged_in (cred : String) (cs : ClientState) (net : Net)
    (h : (loginWithCredential cred cs net).2.1.logged_in = true) :
    cs.logged_in = true ∨
      ∃ js, (netPop net).1 = Except.ok js ∧ js.get "result" = some "ok" := by
  simp only [loginWithCredential] at h
  rcases hp : (netPop net).1 with e | js
  · rw [hp] at h
    exact Or.inl h
  · rw [hp] at h
    dsimp only at h
    by_cases hok : js.get "result" = some "ok"
    · exact Or.inr ⟨js, rfl, hok⟩
    · rw [if_neg hok] at h
      exact Or.inl h

theorem loginWithCredential_fail_state (cred : String) (cs : ClientState) (net : Net)
    (h : (loginWithCredential cred cs net).1 = false) :
    (loginWithCredential cred cs net).2.1 = cs := by
  simp only [loginWithCredential] at h ⊢
  rcases hp : (netPop net).1 with e | js
  · rfl
  · rw [hp] at h
    dsimp only at h ⊢
    by_cases hok : js.get "result" = some "ok"
    · rw [if_pos hok] at h
      simp at h
    · rw [if_neg hok]

theorem getHintedIp_log (net : Net) :
    (getHintedIp net).2.2 = [Request.login "bad" referenceTag] := by
  simp only [getHintedIp]
  rcases h : (netPop net).1 with e | js <;> rfl

theorem getHintedIp_net (net : Net) : (getHintedIp net).2.1 = (netPop net).2 := by
  simp only [getHintedIp]
  rcases h : (netPop net).1 with e | js <;> rfl

theorem loginHintPhase_logged_in (hash : String → String) (cs : ClientState)
    (net : Net) (l0 : List Request)
    (h : (loginHintPhase hash cs net l0).2.1.logged_in = true) :
    cs.logged_in = true ∨
      ∃ js, Except.ok js ∈ net ∧ js.get "result" = some "ok" := by
  simp only [loginHintPhase] at h
  rcases hh : (getHintedIp net).1 with _ | ip
  · rw [hh] at h
    exact Or.inl h
  · rw [hh] at h
    dsimp only at h
    by_cases hip : ip = ""
    · rw [if_pos hip] at h
      exact Or.inl h
    · rw [if_neg hip] at h
      have hlw := loginWithCredential_logged_in (hash (ip ++ cs.password))
        { cs with server_seen_ip := some ip } ((getHintedIp net).2.1) h
      rcases hlw with hl | ⟨js, hjs, hok⟩
      · exact Or.inl hl
      · refine Or.inr ⟨js, ?_, hok⟩
        have hmem := netPop_ok_mem hjs
        rw [getHintedIp_net] at hmem
        exact netPop_snd_subset hmem

theorem loginHintPhase_log_all (hash : String → String) (cs : ClientState)
    (net : Net) (l0 : List Request) (hl0 : l0.all Request.isLogin = true) :
    ((loginHintPhase hash cs net l0).2.2.2).all Request.isLogin = true := by
  simp only [loginHintPhase]
  rcases hh : (getHintedIp net).1 with _ | ip
  · simp [getHintedIp_log, hl0, Request.isLogin]
  · dsimp only
    by_cases hip : ip = ""
    · simp [hip, getHintedIp_log, hl0, Request.isLogin]
    · simp [hip, getHintedIp_log, hl0, Request.isLogin, loginWithCredential_log]

theorem async_login_log_all (hash : String → String) (cs : ClientState) (net : Net) :
    ((async_login hash cs net).2.2.2).all Request.isLogin = true := by
  simp only [async_login]
  by_cases hpw : cs.password = ""
  · simp [hpw]
  · rw [if_neg hpw]
    rcases hsip : cs.server_seen_ip with _ | ip
  
    · exact loginHintPhase_log_all hash cs net [] rfl
    · dsimp only
      by_cases hip : ip = ""
      · rw [if_pos hip]
        exact loginHintPhase_log_all hash cs net [] rfl
      · rw [if_neg hip]
        by_cases hr : (loginWithCredential (hash (ip ++ cs.password)) cs net).1 = true
        · simp [hr, loginWithCredential_log, Request.isLogin]
        · simp only [hr, if_false, Bool.false_eq_true]
          exact loginHintPhase_log_all hash _ _ _
            (by simp [loginWithCredential_log, Request.isLogin])

theorem ensure_login_log_all (hash : String → String) (cs : ClientState) (net : Net) :
    ((ensure_login hash cs net).2.2).all Request.isLogin = true := by
  simp only [ensure_login]
  by_cases hpw : cs.password = ""
  · simp [hpw]
  · by_cases hli : cs.logged_in
    · simp [hpw, hli]
    · simp only [if_neg hpw, hli, if_false, Bool.false_eq_true]
      exact async_login_log_all hash cs net

theorem all_isLogin_filter_isQuery {l : List Request}
    (h : l.all Request.isLogin = true) : l.filter Request.isQuery = [] := by
  induction l with
  | nil => rfl
  | cons a t ih =>
    simp only [List.all_cons, Bool.and_eq_true] at h
    have ha : Request.isQuery a = false := by
      cases a <;> simp_all [Request.isLogin, Request.isQuery]
    simp [List.filter_cons, ha, ih h.2]

theorem all_isLogin_filter_isCommand {l : List Request}
    (h : l.all Request.isLogin = true) : l.filter Request.isCommand = [] := by
  induction l with
  | nil => rfl
  | cons a t ih =>
    simp only [List.all_cons, Bool.and_eq_true] at h
    have ha : Request.isCommand a = false := by
      cases a <;> simp_all [Request.isLogin, Request.isCommand]
    simp [List.filter_cons, ha, ih h.2]

/-- C1: for a query or command whose first decoded response has result
"not logged in", the client marks the session lost, re-ensures login, and
reissues the identical request exactly once; whatever the second response is
(including a second "not logged in"), it is returned to the caller unchanged
with no further retry: the call's result is exactly the next decoded response
after the re-login, and the request log contains exactly two (identical)
query-endpoint requests. -/
theorem C1_not_logged_in_retried_once :
    (∀ (hash : String → String) (qn ps : String) (ref : Option String)
        (cs cs1 cs3 : ClientState) (net netA net1 net3 : Net)
        (l1 l2 : List Request) (js1 : JsonObj),
      ensure_login hash cs net = (cs1, netA, l1) →
      netPop netA = (Except.ok js1, net1) →
      js1.get "result" = some "not logged in" →
      ensure_login hash { cs1 with logged_in := false } net1 = (cs3, net3, l2) →
      query hash qn ps ref cs net =
        ((netPop net3).1, cs3, (netPop net3).2,
          l1 ++ [Request.getQuery qn ps (refOr ref)] ++ l2
            ++ [Request.getQuery qn ps (refOr ref)]) ∧
      (l1 ++ [Request.getQuery qn ps (refOr ref)] ++ l2
          ++ [Request.getQuery qn ps (refOr ref)]).filter Request.isQuery =
        [Request.getQuery qn ps (refOr ref), Request.getQuery qn ps (refOr ref)]) ∧
    (∀ (hash : String → String) (cn ps bd : String) (ref : Option String)
        (cs cs1 cs3 : ClientState) (net netA net1 net3 : Net)
        (l1 l2 : List Request) (js1 : JsonObj),
      ensure_login hash cs net = (cs1, netA, l1) →
      netPop netA = (Except.ok js1, net1) →
      js1.get "result" = some "not logged in" →
      ensure_login hash { cs1 with logged_in := false } net1 = (cs3, net3, l2) →
      command hash cn ps bd ref cs net =
        ((netPop net3).1, cs3, (netPop net3).2,
          l1 ++ [Request.getCommand cn ps bd (refOr ref)] ++ l2
            ++ [Request.getCommand cn ps bd (refOr ref)]) ∧
      (l1 ++ [Request.getCommand cn ps bd (refOr ref)] ++ l2
          ++ [Request.getCommand cn ps bd (refOr ref)]).filter Request.isCommand =
        [Request.getCommand cn ps bd (refOr ref),
         Request.getCommand cn ps bd (refOr ref)]) := by
  constructor
  · intro hash qn ps ref cs cs1 cs3 net netA net1 net3 l1 l2 js1 h1 h2 h3 h4
    have ha1 : l1.all Request.isLogin = true := by
      have h := ensure_login_log_all hash cs net
      rw [h1] at h
      exact h
    have ha2 : l2.all Request.isLogin = true := by
      have h := ensure_login_log_all hash { cs1 with logged_in := false } net1
      rw [h4] at h
      exact h
    constructor
    · simp only [query, h1]
      rw [h2]
      simp only [h3, if_pos, h4]
    · simp [List.filter_append, all_isLogin_filter_isQuery ha1,
        all_isLogin_filter_isQuery ha2, Request.isQuery]
  · intro hash cn ps bd ref cs cs1 cs3 net netA net1 net3 l1 l2 js1 h1 h2 h3 h4
    have ha1 : l1.all Request.isLogin = true := by
      have h := ensure_login_log_all hash cs net
      rw [h1] at h
      exact h
    have ha2 : l2.all Request.isLogin = true := by
      have h := ensure_login_log_all hash { cs1 with logged_in := false } net1
      rw [h4] at h
      exact h
    constructor
    · simp only [command, h1]
      rw [h2]
      simp only [h3, if_pos, h4]
    · simp [List.filter_append, all_isLogin_filter_isCommand ha1,
        all_isLogin_filter_isCommand ha2, Request.isCommand]

/-- C1 witness: a concrete run (password configured, cached IP, re-login
succeeds) in which both decoded responses are "not logged in": the call makes
exactly the two identical query requests around one re-login and returns the
second response unchanged. -/
theorem C1_witness :
    query (fun s => s) "GetPlayingStatus" "" none
        ⟨"pw", some "9.9.9.9", true, none, []⟩
        [Except.ok [("result", "not logged in")], Except.ok [("result", "ok")],
          Except.ok [("result", "not logged in")]] =
      (Except.ok [("result", "not logged in")],
        ⟨"pw", some "9.9.9.9", true, none, []⟩,
        ([] : Net),
        [Request.getQuery "GetPlayingStatus" "" referenceTag,
          Request.login "9.9.9.9pw" referenceTag,
          Request.getQuery "GetPlayingStatus" "" referenceTag]) := by
  have h := C1_not_logged_in_retried_once.1 (fun s => s) "GetPlayingStatus" "" none
    ⟨"pw", some "9.9.9.9", true, none, []⟩
    ⟨"pw", some "9.9.9.9", true, none, []⟩
    ⟨"pw", some "9.9.9.9", true, none, []⟩
    [Except.ok [("result", "not logged in")], Except.ok [("result", "ok")],
      Except.ok [("result", "not logged in")]]
    [Except.ok [("result", "not logged in")], Except.ok [("result", "ok")],
      Except.ok [("result", "not logged in")]]
    [Except.ok [("result", "ok")], Except.ok [("result", "not logged in")]]
    [Except.ok [("result", "not logged in")]]
    [] [Request.login "9.9.9.9pw" referenceTag]
    [("result", "not logged in")]
    (by decide) (by decide) (by decide) (by decide)
  exact h.1.trans (by decide)

/-- C10: with no password configured, a "not logged in" decoded response to a
query or command still triggers exactly one retry of the identical request,
but no login request is ever issued (ensure-login is a no-op); the second
response is returned as-is and the only state change is the cleared
logged-in flag. -/
theorem C10_no_password_retry :
    (∀ (hash : String → String) (qn ps : String) (ref : Option String)
        (cs : ClientState) (js1 : JsonObj) (r2 : Except Unit JsonObj) (rest : Net),
      cs.password = "" →
      js1.get "result" = some "not logged in" →
      query hash qn ps ref cs (Except.ok js1 :: r2 :: rest) =
        (r2, { cs with logged_in := false }, rest,
          [Request.getQuery qn ps (refOr ref), Request.getQuery qn ps (refOr ref)])) ∧
    (∀ (hash : String → String) (cn ps bd : String) (ref : Option String)
        (cs : ClientState) (js1 : JsonObj) (r2 : Except Unit JsonObj) (rest : Net),
      cs.password = "" →
      js1.get "result" = some "not logged in" →
      command hash cn ps bd ref cs (Except.ok js1 :: r2 :: rest) =
        (r2, { cs with logged_in := false }, rest,
          [Request.getCommand cn ps bd (refOr ref),
           Request.getCommand cn ps bd (refOr ref)])) := by
  constructor
  · intro hash qn ps ref cs js1 r2 rest hpw h3
    simp [query, ensure_login, netPop, hpw, h3]
  · intro hash cn ps bd ref cs js1 r2 rest hpw h3
    simp [command, ensure_login, netPop, hpw, h3]

/-- C10 witness: a concrete no-password run where both responses are
"not logged in": one identical retry, no login request, second response
returned as-is. -/
theorem C10_witness :
    query (fun s => s) "GetPlayingStatus" "" none
        ⟨"", none, true, none, []⟩
        [Except.ok [("result", "not logged in")],
          Except.ok [("result", "not logged in")]] =
      (Except.ok [("result", "not logged in")],
        ⟨"", none, false, none, []⟩,
        ([] : Net),
        [Request.getQuery "GetPlayingStatus" "" referenceTag,
          Request.getQuery "GetPlayingStatus" "" referenceTag]) := by
  have h := C10_no_password_retry.1 (fun s => s) "GetPlayingStatus" "" none
    ⟨"", none, true, none, []⟩
    [("result", "not logged in")]
    (Except.ok [("result", "not logged in")]) []
    rfl (by decide)
  exact h.trans (by decide)

theorem getHintedIp_ok {net netR : Net} {js : JsonObj}
    (hpop : netPop net = (Except.ok js, netR)) :
    getHintedIp net = (js.get "ip", netR, [Request.login "bad" referenceTag]) := by
  simp only [getHintedIp, hpop]

theorem loginWithCredential_ok_eval {net netR : Net} {js : JsonObj}
    (cred : String) (cs : ClientState)
    (hpop : netPop net = (Except.ok js, netR)) (hok : js.get "result" = some "ok") :
    loginWithCredential cred cs net =
      (true, { cs with logged_in := true, playlists := none, steps_cache := [] },
        netR, [Request.login cred referenceTag]) := by
  simp only [loginWithCredential, hpop, hok, if_pos]

theorem loginHintPhase_hint_success (hash : String → String) (cs : ClientState)
    {net netR : Net} {js : JsonObj} {ip : String} (l0 : List Request)
    (hpop : netPop net = (Except.ok js, netR)) (hip : js.get "ip" = some ip)
    (hne : ip ≠ "") :
    loginHintPhase hash cs net l0 =
      ((loginWithCredential (hash (ip ++ cs.password))
          { cs with server_seen_ip := some ip } netR).1,
       (loginWithCredential (hash (ip ++ cs.password))
          { cs with server_seen_ip := some ip } netR).2.1,
       (loginWithCredential (hash (ip ++ cs.password))
          { cs with server_seen_ip := some ip } netR).2.2.1,
       l0 ++ [Request.login "bad" referenceTag]
          ++ [Request.login (hash (ip ++ cs.password)) referenceTag]) := by
  simp only [loginHintPhase, getHintedIp_ok hpop, hip, if_neg hne,
    loginWithCredential_log, List.append_assoc]

/-- C2 counterexample: with a password configured and no cached
server-observed IP, a hint request whose response carries no `ip` field ends
the login attempt after a single round trip (one request in the log), so
login does not always perform at least two round trips in that situation. -/
theorem C2_counterexample :
    (⟨"pw", none, false, none, []⟩ : ClientState).password ≠ "" ∧
    (⟨"pw", none, false, none, []⟩ : ClientState).server_seen_ip = none ∧
    (async_login (fun s => s) ⟨"pw", none, false, none, []⟩
        [Except.ok ([] : JsonObj)]).2.2.2.length = 1 ∧
    ¬ 2 ≤ (async_login (fun s => s) ⟨"pw", none, false, none, []⟩
        [Except.ok ([] : JsonObj)]).2.2.2.length ∧
    (async_login (fun s => s) ⟨"pw", none, false, none, []⟩
        [Except.ok ([] : JsonObj)]).1 = false := by
  decide

/-- C2 (amended): with a password configured: (1) when no truthy
server-observed IP is cached and the hint response carries a non-empty IP,
login performs exactly two round trips — the deliberate bad-credential hint
request, then a credential attempt with hash(hintedIP + password) — and
succeeds iff that second response has result "ok" (when the hint yields no
IP, login stops after the single hint round trip, per the counterexample);
(2) when a cached IP's credential attempt succeeds, exactly one round trip
occurs; (3) the client becomes logged-in only when some consumed response
has result "ok". -/
theorem C2_login_roundtrips :
    (∀ (hash : String → String) (cs : ClientState) (net netR : Net)
        (js : JsonObj) (ip : String),
      cs.password ≠ "" →
      strTruthy cs.server_seen_ip = false →
      netPop net = (Except.ok js, netR) →
      js.get "ip" = some ip → ip ≠ "" →
      (async_login hash cs net).2.2.2 =
        [Request.login "bad" referenceTag,
         Request.login (hash (ip ++ cs.password)) referenceTag] ∧
      ((async_login hash cs net).1 = true ↔
        ∃ js2, (netPop netR).1 = Except.ok js2 ∧ js2.get "result" = some "ok")) ∧
    (∀ (hash : String → String) (cs : ClientState) (net netR : Net)
        (js : JsonObj) (ip : String),
      cs.password ≠ "" →
      cs.server_seen_ip = some ip → ip ≠ "" →
      netPop net = (Except.ok js, netR) →
      js.get "result" = some "ok" →
      (async_login hash cs net).1 = true ∧
      (async_login hash cs net).2.2.2 =
        [Request.login (hash (ip ++ cs.password)) referenceTag]) ∧
    (∀ (hash : String → String) (cs : ClientState) (net : Net),
      cs.password ≠ "" → cs.logged_in = false →
      (async_login hash cs net).2.1.logged_in = true →
      ∃ js, Except.ok js ∈ net ∧ js.get "result" = some "ok") := by
  refine ⟨?_, ?_, ?_⟩
  · intro hash cs net netR js ip hpw htr hpop hip hne
    have hgoal : async_login hash cs net = loginHintPhase hash cs net [] := by
      simp only [async_login, if_neg hpw]
      rcases hs : cs.server_seen_ip with _ | s
      · rfl
      · rw [hs] at htr
        have hs0 : s = "" := by simpa [strTruthy] using htr
      
        simp [hs0]
    rw [hgoal, loginHintPhase_hint_success hash cs [] hpop hip hne]
    exact ⟨by simp, loginWithCredential_ok_iff _ _ _⟩
  · intro hash cs net netR js ip hpw hsip hne hpop hok
    simp only [async_login, if_neg hpw, hsip]
    rw [loginWithCredential_ok_eval (hash (ip ++ cs.password))
      cs hpop hok]
    simp [hne]
  · intro hash cs net hpw hli h
    simp only [async_login, if_neg hpw] at h
    rcases hs : cs.server_seen_ip with _ | ip
    · rw [hs] at h
      rcases loginHintPhase_logged_in hash cs net [] h with hc | hgood
      · rw [hli] at hc
        exact absurd hc (by simp)
      · exact hgood
    · rw [hs] at h
      dsimp only at h
      by_cases hip : ip = ""
      · rw [if_pos hip] at h
        rcases loginHintPhase_logged_in hash cs net [] h with hc | hgood
        · rw [hli] at hc
          exact absurd hc (by simp)
        · exact hgood
      · rw [if_neg hip] at h
        by_cases hr : (loginWithCredential (hash (ip ++ cs.password)) cs net).1 = true
        · rw [if_pos hr] at h
          dsimp only at h
          rcases loginWithCredential_logged_in _ cs net h with hc | ⟨js, hjs, hok⟩
          · rw [hli] at hc
            exact absurd hc (by simp)
          · exact ⟨js, netPop_ok_mem hjs, hok⟩
        · rw [if_neg hr] at h
          have hfail : (loginWithCredential (hash (ip ++ cs.password)) cs net).1 = false := by
            simpa using hr
          rw [loginWithCredential_fail_state _ cs net hfail,
            loginWithCredential_net] at h
          rcases loginHintPhase_logged_in hash cs ((netPop net).2) _ h with hc | ⟨js, hjs, hok⟩
          · rw [hli] at hc
            exact absurd hc (by simp)
          · exact ⟨js, netPop_snd_subset hjs, hok⟩

/-- C2 witness: concrete no-cached-IP run whose hint response carries IP
7.7.7.7 and whose credential response is "ok": exactly the two round trips
(bad-credential hint, then hash(ip + password)), and login succeeds. -/
theorem C2_witness :
    (async_login (fun s => s) ⟨"pw", none, false, none, []⟩
        [Except.ok [("ip", "7.7.7.7")], Except.ok [("result", "ok")]]).2.2.2 =
      [Request.login "bad" referenceTag, Request.login "7.7.7.7pw" referenceTag] ∧
    (async_login (fun s => s) ⟨"pw", none, false, none, []⟩
        [Except.ok [("ip", "7.7.7.7")], Except.ok [("result", "ok")]]).1 = true := by
  have h := C2_login_roundtrips.1 (fun s => s) ⟨"pw", none, false, none, []⟩
    [Except.ok [("ip", "7.7.7.7")], Except.ok [("result", "ok")]]
    [Except.ok [("result", "ok")]]
    [("ip", "7.7.7.7")] "7.7.7.7"
    (by decide) (by decide) (by decide) (by decide) (by decide)
  exact ⟨h.1.trans (by decide), h.2.mpr ⟨[("result", "ok")], by decide, by decide⟩⟩

/-!  Step-preservation lemmas for the coordinator. -/

theorem intervalStep_update_interval (st : CoordState) (p : StatusPayload) :
    (intervalStep st p).update_interval =
      if p.status = some "playing" ∨ p.status = some "paused" then st.poll_playing
      else st.poll_idle := by
  unfold intervalStep applyIntervalForStatus
  rcases hs : p.status with _ | s
  · simp [strTruthy, activeStatuses]
  · by_cases h0 : s = ""
    · simp [strTruthy, h0, activeStatuses]
    · simp only [strTruthy, h0, bne_iff_ne, ne_eq, not_false_iff, if_pos, Option.getD_some,
        activeStatuses]
      by_cases h1 : s = "playing"
      · simp [h1]
      · by_cases h2 : s = "paused"
        · simp [h2]
        · simp [h1, h2]

theorem intervalStep_last_version (st : CoordState) (p : StatusPayload) :
    (intervalStep st p).last_version = st.last_version := by
  unfold intervalStep applyIntervalForStatus
  split <;> rfl

theorem intervalStep_last_playlists (st : CoordState) (p : StatusPayload) :
    (intervalStep st p).last_playlists = st.last_playlists := by
  unfold intervalStep applyIntervalForStatus
  split <;> rfl

theorem intervalStep_last_playlists_ts (st : CoordState) (p : StatusPayload) :
    (intervalStep st p).last_playlists_ts = st.last_playlists_ts := by
  unfold intervalStep applyIntervalForStatus
  split <;> rfl

theorem intervalStep_last_schedule_id (st : CoordState) (p : StatusPayload) :
    (intervalStep st p).last_schedule_id = st.last_schedule_id := by
  unfold intervalStep applyIntervalForStatus
  split <;> rfl

theorem intervalStep_last_playlist (st : CoordState) (p : StatusPayload) :
    (intervalStep st p).last_playlist = st.last_playlist := by
  unfold intervalStep applyIntervalForStatus
  split <;> rfl

theorem intervalStep_last_playlist_id (st : CoordState) (p : StatusPayload) :
    (intervalStep st p).last_playlist_id = st.last_playlist_id := by
  unfold intervalStep applyIntervalForStatus
  split <;> rfl

theorem intervalStep_last_status (st : CoordState) (p : StatusPayload) :
    (intervalStep st p).last_status = st.last_status := by
  unfold intervalStep applyIntervalForStatus
  split <;> rfl

theorem intervalStep_last_step (st : CoordState) (p : StatusPayload) :
    (intervalStep st p).last_step = st.last_step := by
  unfold intervalStep applyIntervalForStatus
  split <;> rfl

theorem intervalStep_last_output (st : CoordState) (p : StatusPayload) :
    (intervalStep st p).last_output = st.last_output := by
  unfold intervalStep applyIntervalForStatus
  split <;> rfl

theorem intervalStep_last_playlist_loop (st : CoordState) (p : StatusPayload) :
    (intervalStep st p).last_playlist_loop = st.last_playlist_loop := by
  unfold intervalStep applyIntervalForStatus
  split <;> rfl

theorem versionStep_update_interval (st : CoordState) (p : StatusPayload) :
    (versionStep st p).1.update_interval = st.update_interval := by
  unfold versionStep
  cases p.version with
  | none => rfl
  | some v =>
    dsimp only
    split <;> rfl

theorem versionStep_last_playlists (st : CoordState) (p : StatusPayload) :
    (versionStep st p).1.last_playlists = st.last_playlists := by
  unfold versionStep
  cases p.version with
  | none => rfl
  | some v =>
    dsimp only
    split <;> rfl

theorem versionStep_last_schedule_id (st : CoordState) (p : StatusPayload) :
    (versionStep st p).1.last_schedule_id = st.last_schedule_id := by
  unfold versionStep
  cases p.version with
  | none => rfl
  | some v =>
    dsimp only
    split <;> rfl

theorem versionStep_last_playlist (st : CoordState) (p : StatusPayload) :
    (versionStep st p).1.last_playlist = st.last_playlist := by
  unfold versionStep
  cases p.version with
  | none => rfl
  | some v =>
    dsimp only
    split <;> rfl

theorem versionStep_last_playlist_id (st : CoordState) (p : StatusPayload) :
    (versionStep st p).1.last_playlist_id = st.last_playlist_id := by
  unfold versionStep
  cases p.version with
  | none => rfl
  | some v =>
    dsimp only
    split <;> rfl

theorem versionStep_last_status (st : CoordState) (p : StatusPayload) :
    (versionStep st p).1.last_status = st.last_status := by
  unfold versionStep
  cases p.version with
  | none => rfl
  | some v =>
    dsimp only
    split <;> rfl

theorem versionStep_last_step (st : CoordState) (p : StatusPayload) :
    (versionStep st p).1.last_step = st.last_step := by
  unfold versionStep
  cases p.version with
  | none => rfl
  | some v =>
    dsimp only
    split <;> rfl

theorem versionStep_last_output (st : CoordState) (p : StatusPayload) :
    (versionStep st p).1.last_output = st.last_output := by
  unfold versionStep
  cases p.version with
  | none => rfl
  | some v =>
    dsimp only
    split <;> rfl

theorem versionStep_last_playlist_loop (st : CoordState) (p : StatusPayload) :
    (versionStep st p).1.last_playlist_loop = st.last_playlist_loop := by
  unfold versionStep
  cases p.version with
  | none => rfl
  | some v =>
    dsimp only
    split <;> rfl

theorem listRefreshStep_update_interval (st : CoordState) (now : Nat)
    (plRes : Except Unit (List JsonObj)) :
    (listRefreshStep st now plRes).update_interval = st.update_interval := by
  unfold listRefreshStep
  split
  · cases plRes <;> rfl
  · rfl

theorem listRefreshStep_last_schedule_id (st : CoordState) (now : Nat)
    (plRes : Except Unit (List JsonObj)) :
    (listRefreshStep st now plRes).last_schedule_id = st.last_schedule_id := by
  unfold listRefreshStep
  split
  · cases plRes <;> rfl
  · rfl

theorem listRefreshStep_last_playlist (st : CoordState) (now : Nat)
    (plRes : Except Unit (List JsonObj)) :
    (listRefreshStep st now plRes).last_playlist = st.last_playlist := by
  unfold listRefreshStep
  split
  · cases plRes <;> rfl
  · rfl

theorem listRefreshStep_last_playlist_id (st : CoordState) (now : Nat)
    (plRes : Except Unit (List JsonObj)) :
    (listRefreshStep st now plRes).last_playlist_id = st.last_playlist_id := by
  unfold listRefreshStep
  split
  · cases plRes <;> rfl
  · rfl

theorem listRefreshStep_last_status (st : CoordState) (now : Nat)
    (plRes : Except Unit (List JsonObj)) :
    (listRefreshStep st now plRes).last_status = st.last_status := by
  unfold listRefreshStep
  split
  · cases plRes <;> rfl
  · rfl

theorem listRefreshStep_last_step (st : CoordState) (now : Nat)
    (plRes : Except Unit (List JsonObj)) :
    (listRefreshStep st now plRes).last_step = st.last_step := by
  unfold listRefreshStep
  split
  · cases plRes <;> rfl
  · rfl

theorem listRefreshStep_last_output (st : CoordState) (now : Nat)
    (plRes : Except Unit (List JsonObj)) :
    (listRefreshStep st now plRes).last_output = st.last_output := by
  unfold listRefreshStep
  split
  · cases plRes <;> rfl
  · rfl

theorem listRefreshStep_last_playlist_loop (st : CoordState) (now : Nat)
    (plRes : Except Unit (List JsonObj)) :
    (listRefreshStep st now plRes).last_playlist_loop = st.last_playlist_loop := by
  unfold listRefreshStep
  split
  · cases plRes <;> rfl
  · rfl

theorem listRefreshStep_error (st : CoordState) (now : Nat) (e : Unit) :
    listRefreshStep st now (Except.error e) = st := by
  unfold listRefreshStep
  split <;> rfl

theorem scheduleStep_fst (st : CoordState) (p : StatusPayload) :
    (scheduleStep st p).1 = { st with last_schedule_id := curSchedId p } := rfl

theorem versionStep_noop (st : CoordState) (p : StatusPayload)
    (h : strTruthy p.version = false ∨ p.version = st.last_version) :
    versionStep st p = (st, []) := by
  unfold versionStep
  rcases hv : p.version with _ | v
  · rfl
  · rw [hv] at h
    dsimp only
    rcases h with h0 | h1
    · simp [strTruthy] at h0
      simp [h0]
    · simp [← h1]

theorem versionStep_force (st : CoordState) (p : StatusPayload) (v : String)
    (hv : p.version = some v) (h0 : v ≠ "") (h1 : some v ≠ st.last_version) :
    versionStep st p =
      ({ st with last_playlists_ts := none, last_version := some v },
        [XEvent.versionChanged v]) := by
  unfold versionStep
  rw [hv]
  simp [h0, h1]

theorem needListRefresh_of_ts_none (st : CoordState) (now : Nat)
    (h : st.last_playlists_ts = none) : needListRefresh st now = true := by
  unfold needListRefresh
  rw [h]
  cases st.last_playlists <;> rfl

theorem listRefreshStep_fetch (st : CoordState) (now : Nat) (L : List JsonObj)
    (h : needListRefresh st now = true) :
    listRefreshStep st now (Except.ok L) =
      { st with last_playlists := some L, last_playlists_ts := some now } := by
  unfold listRefreshStep
  rw [h]
  rfl

/-- C3: when the status query raises, the cycle aborts as an update failure:
the coordinator fires no events, mutates no state, and the previously
published snapshot remains the externally visible one. -/
theorem C3_status_failure_keeps_snapshot :
    ∀ (st : CoordState) (pub : Option Snapshot) (now : Nat)
      (plRes : Except Unit (List JsonObj)) (nsRes : Except Unit JsonObj),
      coordinatorTick st pub now (Except.error ()) plRes nsRes = (st, pub, []) := by
  intro st pub now plRes nsRes
  rfl

/-- C9: every cycle sets the next interval to the active-poll option exactly
when the reported status is the string "playing" or "paused", and to the
idle-poll option otherwise (absent status included). -/
theorem C9_interval_adaptation :
    ∀ (st : CoordState) (now : Nat) (p : StatusPayload)
      (plRes : Except Unit (List JsonObj)) (nsRes : Except Unit JsonObj),
      (updateCycle st now p plRes nsRes).1.update_interval =
        if p.status = some "playing" ∨ p.status = some "paused" then st.poll_playing
        else st.poll_idle := by
  intro st now p plRes nsRes
  simp only [updateCycle, edgeCommit, scheduleStep_fst, listRefreshStep_update_interval,
    versionStep_update_interval, intervalStep_update_interval]

/-- C4: a failed playlist-list refresh always leaves the cached list
unchanged, and leaves its timestamp unchanged as well (stated when no
version change forces a cache reset, since that reset clears the timestamp
before the fetch is even attempted); a failed next-scheduled query nulls
that snapshot field; and neither secondary failure escalates: the cycle
still returns a successful result. -/
theorem C4_secondary_fetch_failures :
    (∀ (st : CoordState) (now : Nat) (p : StatusPayload) (nsRes : Except Unit JsonObj),
      (updateCycle st now p (Except.error ()) nsRes).1.last_playlists =
        st.last_playlists) ∧
    (∀ (st : CoordState) (now : Nat) (p : StatusPayload) (nsRes : Except Unit JsonObj),
      (strTruthy p.version = false ∨ p.version = st.last_version) →
      (updateCycle st now p (Except.error ()) nsRes).1.last_playlists_ts =
        st.last_playlists_ts) ∧
    (∀ (st : CoordState) (now : Nat) (p : StatusPayload)
        (plRes : Except Unit (List JsonObj)),
      (updateCycle st now p plRes (Except.error ())).2.2.next_scheduled = none) ∧
    (∀ (st : CoordState) (now : Nat) (p : StatusPayload),
      asyncUpdateData st now (Except.ok p) (Except.error ()) (Except.error ()) =
        Except.ok (updateCycle st now p (Except.error ()) (Except.error ()))) := by
  refine ⟨?_, ?_, ?_, ?_⟩
  · intro st now p nsRes
    simp only [updateCycle, listRefreshStep_error, scheduleStep_fst, edgeCommit]
    simp [versionStep_last_playlists, intervalStep_last_playlists]
  · intro st now p nsRes h
    have hno : versionStep (intervalStep st p) p = (intervalStep st p, []) :=
      versionStep_noop _ p (by rw [intervalStep_last_version]; exact h)
    simp only [updateCycle, hno, listRefreshStep_error, scheduleStep_fst, edgeCommit]
    simp [intervalStep_last_playlists_ts]
  · intro st now p plRes
    rfl
  · intro st now p
    rfl

/-- C4 witness: a concrete cycle in which both secondary fetches fail keeps
the cached playlist list and timestamp and still succeeds. -/
theorem C4_witness :
    (updateCycle ⟨2, 10, 15, 10, some [[("name", "x")]], some 3, none, none,
        none, none, none, none, none, none⟩ 5
      ⟨none, none, none, none, none, none, none, none, none, none, none, none⟩
      (Except.error ()) (Except.error ())).1.last_playlists =
        (⟨2, 10, 15, 10, some [[("name", "x")]], some 3, none, none,
          none, none, none, none, none, none⟩ : CoordState).last_playlists ∧
    (updateCycle ⟨2, 10, 15, 10, some [[("name", "x")]], some 3, none, none,
        none, none, none, none, none, none⟩ 5
      ⟨none, none, none, none, none, none, none, none, none, none, none, none⟩
      (Except.error ()) (Except.error ())).1.last_playlists_ts =
        (⟨2, 10, 15, 10, some [[("name", "x")]], some 3, none, none,
          none, none, none, none, none, none⟩ : CoordState).last_playlists_ts :=
  ⟨C4_secondary_fetch_failures.1
    ⟨2, 10, 15, 10, some [[("name", "x")]], some 3, none, none,
      none, none, none, none, none, none⟩ 5
    ⟨none, none, none, none, none, none, none, none, none, none, none, none⟩
    (Except.error ()),
   C4_secondary_fetch_failures.2.1
    ⟨2, 10, 15, 10, some [[("name", "x")]], some 3, none, none,
      none, none, none, none, none, none⟩ 5
    ⟨none, none, none, none, none, none, none, none, none, none, none, none⟩
    (Except.error ()) (Or.inl rfl)⟩

/-- C5 counterexample: on a payload with every optional field absent, the
published snapshot's own `status` field stays absent rather than being the
neutral default "idle", so the snapshot itself does not carry the documented
defaults. -/
theorem C5_counterexample :
    (updateCycle ⟨2, 10, 15, 10, none, none, none, none, none, none, none,
        none, none, none⟩ 0
      ⟨none, none, none, none, none, none, none, none, none, none, none, none⟩
      (Except.error ()) (Except.error ())).2.2.payload.status = none ∧
    ¬ (updateCycle ⟨2, 10, 15, 10, none, none, none, none, none, none, none,
        none, none, none⟩ 0
      ⟨none, none, none, none, none, none, none, none, none, none, none, none⟩
      (Except.error ()) (Except.error ())).2.2.payload.status = some "idle" := by
  decide

/-- C5 (amended): the coordinator does not rewrite the published snapshot,
whose payload is passed through unchanged (absent fields stay absent); the
neutral defaults apply to the derived values it computes and remembers —
with status, output and loop fields absent, the committed EdgeState holds
status "idle" and false flags, so event derivation never sees null. -/
theorem C5_derived_defaults :
    ∀ (st : CoordState) (now : Nat) (p : StatusPayload)
      (plRes : Except Unit (List JsonObj)) (nsRes : Except Unit JsonObj),
      p.status = none → p.outputtolights = none → p.playlistlooping = none →
      (updateCycle st now p plRes nsRes).1.last_status = some "idle" ∧
      (updateCycle st now p plRes nsRes).1.last_output = some false ∧
      (updateCycle st now p plRes nsRes).1.last_playlist_loop = some false ∧
      (updateCycle st now p plRes nsRes).2.2.payload = p := by
  intro st now p plRes nsRes h1 h2 h3
  refine ⟨?_, ?_, ?_, rfl⟩
  · simp only [updateCycle, edgeCommit, curStatusOf, pyOr, h1]
    decide
  · simp only [updateCycle, edgeCommit, curOutputOf, pyOr, h2]
    decide
  · simp only [updateCycle, edgeCommit, curLoopOf, pyOr, h3]
    decide

/-- C5 witness: the all-absent payload yields the committed defaults at a
concrete state. -/
theorem C5_witness :
    (updateCycle ⟨2, 10, 15, 10, none, none, none, none, none, none, none,
        none, none, none⟩ 0
      ⟨none, none, none, none, none, none, none, none, none, none, none, none⟩
      (Except.error ()) (Except.error ())).1.last_status = some "idle" ∧
    (updateCycle ⟨2, 10, 15, 10, none, none, none, none, none, none, none,
        none, none, none⟩ 0
      ⟨none, none, none, none, none, none, none, none, none, none, none, none⟩
      (Except.error ()) (Except.error ())).1.last_output = some false :=
  have h := C5_derived_defaults
    ⟨2, 10, 15, 10, none, none, none, none, none, none, none, none, none, none⟩ 0
    ⟨none, none, none, none, none, none, none, none, none, none, none, none⟩
    (Except.error ()) (Except.error ()) rfl rfl rfl
  ⟨h.1, h.2.1⟩

/-- C7: a truthy version differing from the last observed one fires
version-changed, records the version, and clears the playlist-cache
timestamp, so the playlist list is re-fetched in that same cycle regardless
of the TTL: with a successful list fetch the new cache and timestamp are
this cycle's, whatever the previous timestamp was. -/
theorem C7_version_change_refetch :
    ∀ (st : CoordState) (now : Nat) (p : StatusPayload) (L : List JsonObj)
      (nsRes : Except Unit JsonObj) (v : String),
      p.version = some v → v ≠ "" → some v ≠ st.last_version →
      XEvent.versionChanged v ∈ (updateCycle st now p (Except.ok L) nsRes).2.1 ∧
      (updateCycle st now p (Except.ok L) nsRes).1.last_version = some v ∧
      (updateCycle st now p (Except.ok L) nsRes).1.last_playlists = some L ∧
      (updateCycle st now p (Except.ok L) nsRes).1.last_playlists_ts = some now := by
  intro st now p L nsRes v hv h0 h1
  have hforce := versionStep_force (intervalStep st p) p v hv h0
    (by rw [intervalStep_last_version]; exact h1)
  have hneed : needListRefresh
      { intervalStep st p with last_playlists_ts := none, last_version := some v }
      now = true :=
    needListRefresh_of_ts_none _ _ rfl
  refine ⟨?_, ?_, ?_, ?_⟩
  · simp only [updateCycle, hforce, List.mem_append]
    left
    left
    simp
  · simp only [updateCycle, hforce, listRefreshStep_fetch _ _ _ hneed,
      scheduleStep_fst, edgeCommit]
  · simp only [updateCycle, hforce, listRefreshStep_fetch _ _ _ hneed,
      scheduleStep_fst, edgeCommit]
  · simp only [updateCycle, hforce, listRefreshStep_fetch _ _ _ hneed,
      scheduleStep_fst, edgeCommit]

/-- C7 witness: version changes from "2023.10" to "2023.11": the event fires
and the list is re-fetched in the same cycle even though the cached
timestamp is fresh. -/
theorem C7_witness :
    XEvent.versionChanged "2023.11" ∈
      (updateCycle ⟨2, 10, 1000, 10, some [], some 4, none, some "2023.10",
          none, none, none, none, none, none⟩ 5
        ⟨none, some "2023.11", none, none, none, none, none, none, none, none,
          none, none⟩
        (Except.ok [[("name", "pl")]]) (Except.error ())).2.1 ∧
    (updateCycle ⟨2, 10, 1000, 10, some [], some 4, none, some "2023.10",
        none, none, none, none, none, none⟩ 5
      ⟨none, some "2023.11", none, none, none, none, none, none, none, none,
        none, none⟩
      (Except.ok [[("name", "pl")]]) (Except.error ())).1.last_playlists_ts = some 5 :=
  have h := C7_version_change_refetch
    ⟨2, 10, 1000, 10, some [], some 4, none, some "2023.10",
      none, none, none, none, none, none⟩ 5
    ⟨none, some "2023.11", none, none, none, none, none, none, none, none,
      none, none⟩
    [[("name", "pl")]] (Except.error ()) "2023.11"
    rfl (by decide) (by decide)
  ⟨h.1, h.2.2.2⟩

theorem plEndedEvents_fire (st : CoordState) (p : StatusPayload) (a : String)
    (hlp : st.last_playlist = some a) (ha : a ≠ "")
    (hc : p.playlist ≠ some a ∨ curStatusOf p ∉ activeStatuses) :
    plEndedEvents st p = [XEvent.playlistEnded a st.last_playlist_id (curStatusOf p)] := by
  simp only [plEndedEvents, hlp]
  rw [if_pos ⟨ha, hc⟩]

theorem plStartedEvents_fire (st : CoordState) (p : StatusPayload) (b : String)
    (hact : curStatusOf p ∈ activeStatuses) (hpb : p.playlist = some b) (hb : b ≠ "")
    (hc : statusActive st.last_status = false ∨ some b ≠ st.last_playlist) :
    plStartedEvents st p =
      [XEvent.playlistStarted b p.playlistid (curStatusOf p) p.trigger] := by
  simp only [plStartedEvents, if_pos hact, hpb]
  rw [if_pos ⟨hb, hc⟩]

/-- C6: when the previous cycle was playing playlist `a` and the current one
is playing a different playlist `b`, the same cycle fires both
playlist-ended carrying `a` (with the remembered playlist id) and
playlist-started carrying `b`. -/
theorem C6_playlist_switch_dual_fire :
    ∀ (st : CoordState) (now : Nat) (p : StatusPayload)
      (plRes : Except Unit (List JsonObj)) (nsRes : Except Unit JsonObj)
      (a b : String),
      st.last_status = some "playing" → st.last_playlist = some a → a ≠ "" →
      p.status = some "playing" → p.playlist = some b → b ≠ "" → b ≠ a →
      XEvent.playlistEnded a st.last_playlist_id "playing" ∈
        (updateCycle st now p plRes nsRes).2.1 ∧
      XEvent.playlistStarted b p.playlistid "playing" p.trigger ∈
        (updateCycle st now p plRes nsRes).2.1 := by
  intro st now p plRes nsRes a b hls hlp ha hps hpb hb hba
  have hcs : curStatusOf p = "playing" := by
    unfold curStatusOf
    rw [hps]
    decide
  have hs1pl : ((scheduleStep (listRefreshStep (versionStep (intervalStep st p) p).1
      now plRes) p).1).last_playlist = some a := by
    simp [scheduleStep_fst, listRefreshStep_last_playlist, versionStep_last_playlist,
      intervalStep_last_playlist, hlp]
  have hs1plid : ((scheduleStep (listRefreshStep (versionStep (intervalStep st p) p).1
      now plRes) p).1).last_playlist_id = st.last_playlist_id := by
    simp [scheduleStep_fst, listRefreshStep_last_playlist_id, versionStep_last_playlist_id,
      intervalStep_last_playlist_id]
  have hEnd := plEndedEvents_fire _ p a hs1pl ha
    (Or.inl (by rw [hpb]; intro hh; exact hba (Option.some.inj hh)))
  rw [hs1plid, hcs] at hEnd
  have hStart := plStartedEvents_fire
    ((scheduleStep (listRefreshStep (versionStep (intervalStep st p) p).1 now plRes) p).1)
    p b (by rw [hcs]; decide) hpb hb
    (Or.inr (by rw [hs1pl]; intro hh; exact hba (Option.some.inj hh)))
  rw [hcs] at hStart
  constructor
  · simp only [updateCycle, derivedEvents]
    apply List.mem_append_right
    apply List.mem_append_left
    apply List.mem_append_left
    apply List.mem_append_left
    apply List.mem_append_left
    rw [hEnd]
    exact List.mem_singleton_self _
  · simp only [updateCycle, derivedEvents]
    apply List.mem_append_right
    apply List.mem_append_left
    apply List.mem_append_left
    apply List.mem_append_left
    apply List.mem_append_right
    rw [hStart]
    exact List.mem_singleton_self _

/-- C6 witness: previous cycle playing "A", current cycle playing "B": both
events fire in the same cycle. -/
theorem C6_witness :
    XEvent.playlistEnded "A" (some "7") "playing" ∈
      (updateCycle ⟨2, 10, 15, 10, some [], some 3, none, none, some "playing",
          some "A", some "7", none, none, none⟩ 5
        ⟨some "playing", none, none, none, some "8", some "B", none, none, none,
          none, none, none⟩
        (Except.error ()) (Except.error ())).2.1 ∧
    XEvent.playlistStarted "B" (some "8") "playing" none ∈
      (updateCycle ⟨2, 10, 15, 10, some [], some 3, none, none, some "playing",
          some "A", some "7", none, none, none⟩ 5
        ⟨some "playing", none, none, none, some "8", some "B", none, none, none,
          none, none, none⟩
        (Except.error ()) (Except.error ())).2.1 :=
  C6_playlist_switch_dual_fire
    ⟨2, 10, 15, 10, some [], some 3, none, none, some "playing",
      some "A", some "7", none, none, none⟩ 5
    ⟨some "playing", none, none, none, some "8", some "B", none, none, none,
      none, none, none⟩
    (Except.error ()) (Except.error ()) "A" "B"
    rfl rfl (by decide) rfl rfl (by decide) (by decide)

def XEvent.isSchedStart : XEvent → Bool
  | .scheduleStarted _ _ _ _ _ _ => true
  | _ => false

def XEvent.isSchedEnd : XEvent → Bool
  | .scheduleEnded _ => true
  | _ => false

theorem versionStep_any_isSchedStart (st : CoordState) (p : StatusPayload) :
    ((versionStep st p).2.any XEvent.isSchedStart) = false := by
  unfold versionStep
  cases p.version with
  | none => rfl
  | some v =>
    dsimp only
    split <;> rfl

theorem versionStep_any_isSchedEnd (st : CoordState) (p : StatusPayload) :
    ((versionStep st p).2.any XEvent.isSchedEnd) = false := by
  unfold versionStep
  cases p.version with
  | none => rfl
  | some v =>
    dsimp only
    split <;> rfl

theorem plEndedEvents_any_isSchedStart (st : CoordState) (p : StatusPayload) :
    (plEndedEvents st p).any XEvent.isSchedStart = false := by
  unfold plEndedEvents
  cases st.last_playlist with
  | none => rfl
  | some lp =>
    dsimp only
    split <;> rfl

theorem plEndedEvents_any_isSchedEnd (st : CoordState) (p : StatusPayload) :
    (plEndedEvents st p).any XEvent.isSchedEnd = false := by
  unfold plEndedEvents
  cases st.last_playlist with
  | none => rfl
  | some lp =>
    dsimp only
    split <;> rfl

theorem plStartedEvents_any_isSchedStart (st : CoordState) (p : StatusPayload) :
    (plStartedEvents st p).any XEvent.isSchedStart = false := by
  unfold plStartedEvents
  split
  · cases p.playlist with
    | none => rfl
    | some cp =>
      dsimp only
      split <;> rfl
  · rfl

theorem plStartedEvents_any_isSchedEnd (st : CoordState) (p : StatusPayload) :
    (plStartedEvents st p).any XEvent.isSchedEnd = false := by
  unfold plStartedEvents
  split
  · cases p.playlist with
    | none => rfl
    | some cp =>
      dsimp only
      split <;> rfl
  · rfl

theorem stepEvents_any_isSchedStart (st : CoordState) (p : StatusPayload) :
    (stepEvents st p).any XEvent.isSchedStart = false := by
  unfold stepEvents
  split <;> rfl

theorem stepEvents_any_isSchedEnd (st : CoordState) (p : StatusPayload) :
    (stepEvents st p).any XEvent.isSchedEnd = false := by
  unfold stepEvents
  split <;> rfl

theorem outputEvents_any_isSchedStart (st : CoordState) (p : StatusPayload) :
    (outputEvents st p).any XEvent.isSchedStart = false := by
  unfold outputEvents
  cases st.last_output with
  | none => rfl
  | some lo =>
    dsimp only
    split <;> rfl

theorem outputEvents_any_isSchedEnd (st : CoordState) (p : StatusPayload) :
    (outputEvents st p).any XEvent.isSchedEnd = false := by
  unfold outputEvents
  cases st.last_output with
  | none => rfl
  | some lo =>
    dsimp only
    split <;> rfl

theorem loopEvents_any_isSchedStart (st : CoordState) (p : StatusPayload) :
    (loopEvents st p).any XEvent.isSchedStart = false := by
  unfold loopEvents
  cases st.last_playlist_loop with
  | none => rfl
  | some ll =>
    dsimp only
    split <;> rfl

theorem loopEvents_any_isSchedEnd (st : CoordState) (p : StatusPayload) :
    (loopEvents st p).any XEvent.isSchedEnd = false := by
  unfold loopEvents
  cases st.last_playlist_loop with
  | none => rfl
  | some ll =>
    dsimp only
    split <;> rfl

theorem derivedEvents_any_isSchedStart (st : CoordState) (p : StatusPayload) :
    (derivedEvents st p).any XEvent.isSchedStart = false := by
  simp [derivedEvents, List.any_append, plEndedEvents_any_isSchedStart,
    plStartedEvents_any_isSchedStart, stepEvents_any_isSchedStart,
    outputEvents_any_isSchedStart, loopEvents_any_isSchedStart]

theorem derivedEvents_any_isSchedEnd (st : CoordState) (p : StatusPayload) :
    (derivedEvents st p).any XEvent.isSchedEnd = false := by
  simp [derivedEvents, List.any_append, plEndedEvents_any_isSchedEnd,
    plStartedEvents_any_isSchedEnd, stepEvents_any_isSchedEnd,
    outputEvents_any_isSchedEnd, loopEvents_any_isSchedEnd]

theorem schedStartEvents_any_isSchedEnd (st : CoordState) (p : StatusPayload) :
    (schedStartEvents st p).any XEvent.isSchedEnd = false := by
  unfold schedStartEvents
  cases curSchedId p with
  | none => rfl
  | some sid =>
    dsimp only
    split <;> rfl

theorem schedEndEvents_any_isSchedStart (st : CoordState) (p : StatusPayload) :
    (schedEndEvents st p).any XEvent.isSchedStart = false := by
  unfold schedEndEvents
  cases st.last_schedule_id with
  | none => rfl
  | some lid =>
    dsimp only
    split <;> rfl

theorem schedStartEvents_any_iff (st : CoordState) (p : StatusPayload) :
    (schedStartEvents st p).any XEvent.isSchedStart = true ↔
      ∃ sid, curSchedId p = some sid ∧ sid ≠ "" ∧ some sid ≠ st.last_schedule_id := by
  unfold schedStartEvents
  cases hc : curSchedId p with
  | none => simp
  | some sid =>
    dsimp only
    split
    · next h => simp [XEvent.isSchedStart, h]
    · next h => simp [h]

theorem schedEndEvents_any_iff (st : CoordState) (p : StatusPayload) :
    (schedEndEvents st p).any XEvent.isSchedEnd = true ↔
      ∃ lid, st.last_schedule_id = some lid ∧ lid ≠ "" ∧
        strTruthy (curSchedId p) = false := by
  unfold schedEndEvents
  cases hl : st.last_schedule_id with
  | none => simp
  | some lid =>
    dsimp only
    split
    · next h => simp [XEvent.isSchedEnd, h]
    · next h => simp [h]

/-- C8: in every successful cycle, schedule-started fires exactly when the
current active schedule id is valid (status playing/paused, non-empty, not
"N/A") and differs from the previous cycle's, and schedule-ended fires
exactly when a truthy previous schedule id existed and the current one is
absent/invalid. -/
theorem C8_schedule_edge_events :
    ∀ (st : CoordState) (now : Nat) (p : StatusPayload)
      (plRes : Except Unit (List JsonObj)) (nsRes : Except Unit JsonObj),
      ((updateCycle st now p plRes nsRes).2.1.any XEvent.isSchedStart = true ↔
        ∃ sid, curSchedId p = some sid ∧ sid ≠ "" ∧
          some sid ≠ st.last_schedule_id) ∧
      ((updateCycle st now p plRes nsRes).2.1.any XEvent.isSchedEnd = true ↔
        ∃ lid, st.last_schedule_id = some lid ∧ lid ≠ "" ∧
          strTruthy (curSchedId p) = false) := by
  intro st now p plRes nsRes
  have h2 : (listRefreshStep (versionStep (intervalStep st p) p).1 now plRes).last_schedule_id
      = st.last_schedule_id := by
    simp [listRefreshStep_last_schedule_id, versionStep_last_schedule_id,
      intervalStep_last_schedule_id]
  constructor
  · simp only [updateCycle, scheduleStep, List.any_append, versionStep_any_isSchedStart,
      derivedEvents_any_isSchedStart, schedEndEvents_any_isSchedStart,
      Bool.false_or, Bool.or_false]
    rw [schedStartEvents_any_iff, h2]
  · simp only [updateCycle, scheduleStep, List.any_append, versionStep_any_isSchedEnd,
      derivedEvents_any_isSchedEnd, schedStartEvents_any_isSchedEnd,
      Bool.false_or, Bool.or_false]
    rw [schedEndEvents_any_iff, h2]
